import Mathlib

/-!
Verification development for the robot_visualization repository.

The embedding below translates `robot_visualization/robot.py`,
`robot_visualization/video_utils.py` and `robot_visualization/primitives.py`
into Lean. Floating-point arithmetic of the source is modelled exactly:
over ℚ for the kinematic/cache pipeline and the video helpers, and over ℝ
for the arrow visualizer (whose rebuild uses a Euclidean norm).

External collaborators (the urdfpy kinematic tree and the pyvista plotter)
are modelled through the minimal interface the repository consumes:
the tree provides `visual_trimesh_fk` / `link_fk` pose maps and per-link
local vertex buffers, and the plotter is a growing list of scene actors,
each owning a mutable geometry (`add_mesh` appends, in-place vertex writes
replace the indexed entry).
-/

/-- A 3-vector of exact coordinates (models a numpy float 3-vector). -/
abbrev Vec3q := ℚ × ℚ × ℚ

/-- A 4x4 homogeneous transform (models a numpy 4x4 pose matrix). -/
abbrev Mat4 := Matrix (Fin 4) (Fin 4) ℚ

/-- Componentwise sum of two 3-vectors (numpy vector addition). -/
def add3q (a b : Vec3q) : Vec3q := (a.1 + b.1, a.2.1 + b.2.1, a.2.2 + b.2.2)

/-- Componentwise difference of two 3-vectors (numpy vector subtraction). -/
def sub3q (a b : Vec3q) : Vec3q := (a.1 - b.1, a.2.1 - b.2.1, a.2.2 - b.2.2)

/-- Apply a homogeneous transform to one point. Only the top three rows of
the matrix are read, exactly as in `pv_mesh.transform(transform)` where the
code builds `transform` from `pose[:3, :3]` and `pose[:3, 3]`. -/
def applyMat4 (T : Mat4) (p : Vec3q) : Vec3q :=
  (T 0 0 * p.1 + T 0 1 * p.2.1 + T 0 2 * p.2.2 + T 0 3,
   T 1 0 * p.1 + T 1 1 * p.2.1 + T 1 2 * p.2.2 + T 1 3,
   T 2 0 * p.1 + T 2 1 * p.2.1 + T 2 2 * p.2.2 + T 2 3)

/-- Apply a pose to a whole vertex buffer (`pv_mesh.transform(..., inplace=True)`). -/
def applyPose (T : Mat4) (pts : List Vec3q) : List Vec3q := pts.map (applyMat4 T)

/-- Extract the translation column `pose[:3, 3]`. -/
def translationOf (T : Mat4) : Vec3q := (T 0 3, T 1 3, T 2 3)

/-- Scene geometry resident in the plotter. Robot link meshes carry their
current world-space vertex buffer; the primitive constructors of pyvista
(`pv.Sphere`, `pv.Cube`, `pv.Line`, `pv.lines_from_points`) are kept
symbolic, recording exactly the arguments the repository passes to them. -/
inductive Geometry where
  | mesh (points : List Vec3q)
  | sphere (center : Vec3q) (radius : ℚ)
  | cube (center : Vec3q) (xl yl zl : ℚ)
  | line (a b : Vec3q)
  | polyline (points : List Vec3q) (segments : List (Nat × Nat))
  deriving DecidableEq

/-- One entry of the plotter: the actor together with the dataset it renders
(`plotter.add_mesh(pv_mesh, color=..., opacity=..., line_width=...)`). -/
structure Actor where
  geom : Geometry
  color : String
  opacity : ℚ
  line_width : Option ℚ
  deriving DecidableEq

/-- Vertex buffer of a link-mesh actor, if this actor is one. -/
def Actor.meshPoints (a : Actor) : Option (List Vec3q) :=
  match a.geom with
  | Geometry.mesh pts => some pts
  | _ => none

/-- The external urdfpy model, reduced to the interface `robot.py` consumes.
`meshes` lists the identities of the visual trimeshes (the dictionary keys
of `visual_trimesh_fk`, pairwise distinct objects, hence `nodup`);
`mesh_points` gives each trimesh's pristine local vertex buffer
(`pv.wrap(tm).points`); `visual_trimesh_fk cfg tm` is the pose of trimesh
`tm` at configuration `cfg` (`none` models the call with no argument, i.e.
the neutral configuration); `link_fk q name` models `robot.link_fk(q, name)`. -/
structure KinematicTree where
  meshes : List Nat
  nodup : meshes.Nodup
  mesh_points : Nat → List Vec3q
  visual_trimesh_fk : Option (List ℚ) → Nat → Mat4
  link_fk : List ℚ → String → Mat4

/-- State of one `Robot` instance: the loaded tree, the base transform `T0`,
the default color/opacity, the plotter's actor list, the
`(trimesh, instance id) -> actor` cache `mesh_actors` (association list,
first match wins, insertion prepends — Python dict lookup/overwrite), and
the `id_list` registry. -/
structure Robot where
  robot : KinematicTree
  T0 : Mat4
  mesh_color : String
  mesh_opacity : ℚ
  plotter : List Actor
  mesh_actors : List ((Nat × Nat) × Nat)
  id_list : List Nat

/-- Dictionary lookup in the mesh-actor cache: value of the first entry
whose key equals `k`. -/
def lookupMA (l : List ((Nat × Nat) × Nat)) (k : Nat × Nat) : Option Nat :=
  (l.find? (fun kv => kv.1 == k)).map (fun kv => kv.2)

/-- Build `T0` as in `Robot.__init__`: identity, with the rotation block
set to `R0` and the translation column to `p0`. -/
def vecCompQ (p : Vec3q) (i : ℕ) : ℚ :=
  if i = 0 then p.1 else if i = 1 then p.2.1 else p.2.2

def buildT0 (p0 : Vec3q) (R0 : Matrix (Fin 3) (Fin 3) ℚ) : Mat4 :=
  Matrix.of fun i j =>
    if hi : (i : ℕ) < 3 then
      if hj : (j : ℕ) < 3 then R0 ⟨i, hi⟩ ⟨j, hj⟩ else vecCompQ p0 i
    else if (j : ℕ) < 3 then 0 else 1

/-- `Robot.__init__`: store defaults, build `T0`, keep the given plotter
(or a fresh empty one), and start with empty cache and registry. -/
def mkRobot (tree : KinematicTree) (plotter : List Actor) (color : String)
    (opacity : ℚ) (p0 : Vec3q) (R0 : Matrix (Fin 3) (Fin 3) ℚ) : Robot :=
  { robot := tree
    T0 := buildT0 p0 R0
    mesh_color := color
    mesh_opacity := opacity
    plotter := plotter
    mesh_actors := []
    id_list := [] }

/-- The `for tm in fk` loop of `set_robot_mesh`: for each trimesh, transform
a fresh copy of its local vertices by `T0 @ pose` at the neutral
configuration, add the mesh to the plotter, and record `(tm, id) -> actor`. -/
def setMeshLoop (id : Nat) (color : String) (opacity : ℚ) :
    List Nat → Robot → Robot
  | [], r => r
  | tm :: rest, r =>
    setMeshLoop id color opacity rest
      { r with
        plotter := r.plotter ++
          [{ geom := Geometry.mesh
               (applyPose (r.T0 * r.robot.visual_trimesh_fk none tm)
                 (r.robot.mesh_points tm)),
             color := color, opacity := opacity, line_width := none }]
        mesh_actors := ((tm, id), r.plotter.length) :: r.mesh_actors }

/-- `Robot.set_robot_mesh`: append `id` to the registry, resolve the color
and opacity defaults, then create all link meshes at the neutral
configuration. -/
def Robot.set_robot_mesh (r : Robot) (id : Nat)
    (color : Option String) (opacity : Option ℚ) : Robot :=
  setMeshLoop id (color.getD r.mesh_color) (opacity.getD r.mesh_opacity)
    r.robot.meshes { r with id_list := r.id_list ++ [id] }

/-- In-place vertex write on the plotter entry `idx`
(`pv_mesh.points = ...; pv_mesh.transform(...)` mutates the actor's dataset). -/
def setScenePoints (scene : List Actor) (idx : Nat) (pts : List Vec3q) :
    List Actor :=
  match scene[idx]? with
  | some a => scene.set idx { a with geom := Geometry.mesh pts }
  | none => scene

/-- The `for tm in fk` loop of `update`: reset each cached mesh to the
pristine local vertices and apply `T0 @ pose(q)`; a missing cache entry is
a Python `KeyError`. -/
def updateMeshLoop (id : Nat) (q : List ℚ) :
    List Nat → Robot → Except String Robot
  | [], r => Except.ok r
  | tm :: rest, r =>
    match lookupMA r.mesh_actors (tm, id) with
    | none => Except.error ("KeyError")
    | some idx =>
      updateMeshLoop id q rest
        { r with
            plotter := setScenePoints r.plotter idx
              (applyPose (r.T0 * r.robot.visual_trimesh_fk (some q) tm)
                (r.robot.mesh_points tm)) }

/-- The two guard statements at the top of `Robot.update`: create the meshes
when the cache is empty, then again when `id` is not registered. -/
def Robot.ensureMeshes (r : Robot) (id : Nat) : Robot :=
  let r1 := if r.mesh_actors = [] then r.set_robot_mesh id none none else r
  if id ∈ r1.id_list then r1 else r1.set_robot_mesh id none none

/-- `Robot.update`: ensure cache entries exist for `id`, then apply the given
joint configuration to every cached link mesh in place. -/
def Robot.update (r : Robot) (q : List ℚ) (id : Nat) : Except String Robot :=
  let r2 := r.ensureMeshes id
  updateMeshLoop id q r2.robot.meshes r2

/-- `Robot.fk`: pose of the named link pre-multiplied by `T0`. The method
body assigns nothing to `self`; the returned pair carries the unchanged
receiver to make that explicit. -/
def Robot.fk (r : Robot) (q : List ℚ) (ee_link_name : String) : Mat4 × Robot :=
  (r.T0 * r.robot.link_fk q ee_link_name, r)

/-- Current world vertices of the cached scene mesh for `(tm, id)`. -/
def Robot.cachedPoints (r : Robot) (tm id : Nat) : Option (List Vec3q) :=
  (lookupMA r.mesh_actors (tm, id)).bind fun idx =>
    (r.plotter[idx]?).bind Actor.meshPoints

/-- End-effector position used by the plotting helpers:
`(self.fk(q, ee_link_name) @ Tgp)[:3, 3]`. -/
def eePos (r : Robot) (Tgp : Mat4) (ee_link_name : String) (q : List ℚ) :
    Vec3q :=
  translationOf ((r.fk q ee_link_name).1 * Tgp)

/-- `Robot.plot_ee`: compute the end-effector position, then draw one marker
according to `ty` (the `type` kwarg); any other value falls through the
`if/elif` chain and draws nothing. -/
def Robot.plot_ee (r : Robot) (q : List ℚ) (Tgp : Mat4)
    (ee_link_name : String) (color : String) (size : ℚ) (ty : String) :
    Robot :=
  let ee_pos := eePos r Tgp ee_link_name q
  if ty = "sphere" then
    { r with
        plotter := r.plotter ++
          [{ geom := Geometry.sphere ee_pos (size / 2), color := color,
             opacity := 1, line_width := none }] }
  else if ty = "cube" then
    { r with
        plotter := r.plotter ++
          [{ geom := Geometry.cube ee_pos size size size, color := color,
             opacity := 1, line_width := none }] }
  else if ty = "cross" then
    { r with
        plotter := r.plotter ++
          [{ geom := Geometry.line (sub3q ee_pos (size / 2, 0, 0))
               (add3q ee_pos (size / 2, 0, 0)), color := color, opacity := 1,
             line_width := some 4 },
           { geom := Geometry.line (sub3q ee_pos (0, size / 2, 0))
               (add3q ee_pos (0, size / 2, 0)), color := color, opacity := 1,
             line_width := some 4 },
           { geom := Geometry.line (sub3q ee_pos (0, 0, size / 2))
               (add3q ee_pos (0, 0, size / 2)), color := color, opacity := 1,
             line_width := some 4 }] }
  else r

/-- `pyvista.lines_from_points` (external backend): an open polyline has one
segment per consecutive point pair; an empty point array is rejected by the
backend's points setter (a `ValueError`, modelled as the error case), while
a single point yields a degenerate mesh with no segments. -/
def lines_from_points (points : List Vec3q) (close : Bool) :
    Except String (List Vec3q × List (Nat × Nat)) :=
  if points.isEmpty then
    Except.error ("points array of shape (0,) rejected by backend")
  else
    Except.ok (points,
      (List.range (points.length - 1)).map (fun i => (i, i + 1)) ++
        (if close then [(points.length - 1, 0)] else []))

/-- `Robot.plot_ee_path`: end-effector positions of all configurations in
order, turned into one polyline actor. The actor is added with
`opacity=self.mesh_opacity` (the `opacity` parameter of the method is not
used). Returns the new actor as its plotter index. -/
def Robot.plot_ee_path (r : Robot) (path : List (List ℚ)) (Tgp : Mat4)
    (ee_link_name : String) (color : Option String) (opacity : ℚ)
    (line_width : ℚ) : Except String (Robot × Nat) :=
  let c := color.getD r.mesh_color
  let pos := path.map (eePos r Tgp ee_link_name)
  match lines_from_points pos false with
  | Except.error e => Except.error e
  | Except.ok pl =>
    Except.ok
      ({ r with
           plotter := r.plotter ++
             [{ geom := Geometry.polyline pl.1 pl.2, color := c,
                opacity := r.mesh_opacity, line_width := some line_width }] },
       r.plotter.length)

/-- Every cached actor index is a valid plotter index. -/
abbrev WfBounds (r : Robot) : Prop :=
  ∀ kv ∈ r.mesh_actors, kv.2 < r.plotter.length

/-- Distinct cache entries reference distinct plotter actors. -/
abbrev WfInj (r : Robot) : Prop :=
  (r.mesh_actors.map (fun kv => kv.2)).Nodup

/-- Every registered instance id has a cache entry for every link mesh. -/
abbrev WfIds (r : Robot) : Prop :=
  ∀ i ∈ r.id_list, ∀ tm ∈ r.robot.meshes,
    (lookupMA r.mesh_actors (tm, i)).isSome = true

/-- Well-formed robot state; holds for a freshly constructed instance and is
preserved by `set_robot_mesh` and `update`. -/
abbrev WfRobot (r : Robot) : Prop := WfBounds r ∧ WfInj r ∧ WfIds r

/-- `calculate_fps_from_timestamps` from `video_utils.py`. -/
def calculate_fps_from_timestamps (time_ms : List ℚ) : ℚ :=
  if time_ms.length < 2 then 30
  else (time_ms.length : ℚ) / (time_ms.getLastD 0 / 1000)

/-- Python 3 `round` to an integer: nearest integer, ties to even. -/
def pythonRound (x : ℚ) : ℤ :=
  if x - ⌊x⌋ < 1 / 2 then ⌊x⌋
  else if 1 / 2 < x - ⌊x⌋ then ⌊x⌋ + 1
  else if Even ⌊x⌋ then ⌊x⌋ else ⌊x⌋ + 1

/-- `interpolate_frame_count` from `video_utils.py`. -/
def interpolate_frame_count (current_time previous_time mean_fps : ℚ) : ℤ :=
  max 1 (pythonRound ((current_time - previous_time) / 1000 * mean_fps))

theorem lookupMA_cons_eq (k : Nat × Nat) (v : Nat) (l : List ((Nat × Nat) × Nat)) :
    lookupMA ((k, v) :: l) k = some v := by
  unfold lookupMA
  rw [List.find?_cons_of_pos _ (by simp)]
  rfl

theorem lookupMA_cons_ne {k0 k : Nat × Nat} (v : Nat)
    (l : List ((Nat × Nat) × Nat)) (h : k0 ≠ k) :
    lookupMA ((k0, v) :: l) k = lookupMA l k := by
  unfold lookupMA
  rw [List.find?_cons_of_neg _ (by simp [h])]

theorem lookupMA_eq_some_mem {l : List ((Nat × Nat) × Nat)} {k : Nat × Nat}
    {v : Nat} (h : lookupMA l k = some v) : (k, v) ∈ l := by
  unfold lookupMA at h
  cases hf : l.find? (fun kv => kv.1 == k) with
  | none => rw [hf] at h; simp at h
  | some kv =>
    rw [hf] at h
    have hv : kv.2 = v := by simpa using h
    have hm := List.mem_of_find?_eq_some hf
    have hp : kv.1 = k := by simpa using List.find?_some hf
    have : kv = (k, v) := by
      cases kv with
      | mk a b => simp at hv hp; rw [hv, hp]
    rwa [this] at hm

theorem lookupMA_inj {l : List ((Nat × Nat) × Nat)}
    (hW : (l.map (fun kv => kv.2)).Nodup) {k k' : Nat × Nat} {v : Nat}
    (h : lookupMA l k = some v) (h' : lookupMA l k' = some v) : k = k' := by
  by_contra hne
  have m : ((k, v) : (Nat × Nat) × Nat) ∈ l := lookupMA_eq_some_mem h
  have m' : ((k', v) : (Nat × Nat) × Nat) ∈ l := lookupMA_eq_some_mem h'
  have hp : l.Pairwise (fun a b => a.2 ≠ b.2) := List.pairwise_map.mp hW
  have hsym : Symmetric (fun a b : (Nat × Nat) × Nat => a.2 ≠ b.2) :=
    fun _ _ hab => Ne.symm hab
  have hne2 : ((k, v) : (Nat × Nat) × Nat) ≠ (k', v) := by
    intro hcontra
    exact hne (by simpa using congrArg Prod.fst hcontra)
  exact (hp.forall hsym m m' hne2) rfl

theorem setMeshLoop_const (id : Nat) (c : String) (o : ℚ) (ms : List Nat)
    (r : Robot) :
    (setMeshLoop id c o ms r).robot = r.robot ∧
    (setMeshLoop id c o ms r).T0 = r.T0 ∧
    (setMeshLoop id c o ms r).id_list = r.id_list ∧
    (setMeshLoop id c o ms r).mesh_color = r.mesh_color ∧
    (setMeshLoop id c o ms r).mesh_opacity = r.mesh_opacity := by
  induction ms generalizing r with
  | nil => simp [setMeshLoop]
  | cons tm rest ih => simpa [setMeshLoop] using ih _

theorem setMeshLoop_length_le (id : Nat) (c : String) (o : ℚ) (ms : List Nat)
    (r : Robot) :
    r.plotter.length ≤ (setMeshLoop id c o ms r).plotter.length := by
  induction ms generalizing r with
  | nil => simp [setMeshLoop]
  | cons tm rest ih =>
    rw [setMeshLoop]
    refine le_trans ?_ (ih _)
    simp only [List.length_append, List.length_cons, List.length_nil]
    omega

theorem setMeshLoop_plotter_stable (id : Nat) (c : String) (o : ℚ)
    (ms : List Nat) (r : Robot) (i : Nat) (hi : i < r.plotter.length) :
    (setMeshLoop id c o ms r).plotter[i]? = r.plotter[i]? := by
  induction ms generalizing r with
  | nil => simp [setMeshLoop]
  | cons tm rest ih =>
    rw [setMeshLoop]
    rw [ih _ (by simpa using Nat.lt_succ_of_lt hi)]
    simp [List.getElem?_append, hi]

theorem setMeshLoop_lookup_other (id : Nat) (c : String) (o : ℚ)
    (ms : List Nat) (r : Robot) (tm' id' : Nat)
    (h : id' ≠ id ∨ tm' ∉ ms) :
    lookupMA (setMeshLoop id c o ms r).mesh_actors (tm', id') =
      lookupMA r.mesh_actors (tm', id') := by
  induction ms generalizing r with
  | nil => simp [setMeshLoop]
  | cons tm rest ih =>
    have hk : ((tm, id) : Nat × Nat) ≠ (tm', id') := by
      intro hcontra
      rw [Prod.mk.injEq] at hcontra
      rcases h with h | h
      · exact h hcontra.2.symm
      · rw [← hcontra.1] at h
        exact h (List.mem_cons_self _ _)
    have hrest : id' ≠ id ∨ tm' ∉ rest := by
      rcases h with h | h
      · exact Or.inl h
      · exact Or.inr (fun hm => h (List.mem_cons_of_mem _ hm))
    rw [setMeshLoop, ih _ hrest]
    exact lookupMA_cons_ne _ _ hk

theorem wf_bounds_step (r : Robot)
    (hb : ∀ kv ∈ r.mesh_actors, kv.2 < r.plotter.length) (k : Nat × Nat)
    (a : Actor) :
    ∀ kv ∈ (k, r.plotter.length) :: r.mesh_actors,
      kv.2 < (r.plotter ++ [a]).length := by
  intro kv hkv
  simp only [List.length_append, List.length_cons, List.length_nil]
  rcases List.mem_cons.mp hkv with hkv | hkv
  · rw [hkv]; omega
  · have := hb kv hkv; omega

theorem setMeshLoop_wf (id : Nat) (c : String) (o : ℚ) (ms : List Nat)
    (r : Robot) (hb : ∀ kv ∈ r.mesh_actors, kv.2 < r.plotter.length)
    (hi : (r.mesh_actors.map (fun kv => kv.2)).Nodup) :
    (∀ kv ∈ (setMeshLoop id c o ms r).mesh_actors,
      kv.2 < (setMeshLoop id c o ms r).plotter.length) ∧
    ((setMeshLoop id c o ms r).mesh_actors.map (fun kv => kv.2)).Nodup := by
  induction ms generalizing r with
  | nil => exact ⟨by simpa [setMeshLoop] using hb, by simpa [setMeshLoop] using hi⟩
  | cons tm rest ih =>
    rw [setMeshLoop]
    apply ih
    · intro kv hkv
      simp only [List.length_append, List.length_cons, List.length_nil]
      rcases List.mem_cons.mp hkv with hkv | hkv
      · rw [hkv]; omega
      · have := hb kv hkv; omega
    · simp only [List.map_cons, List.nodup_cons]
      refine ⟨?_, hi⟩
      intro hmem
      rcases List.mem_map.mp hmem with ⟨kv, hkv, hlen⟩
      have := hb kv hkv
      omega

theorem setMeshLoop_cached_other (id : Nat) (c : String) (o : ℚ)
    (ms : List Nat) (r : Robot)
    (hb : ∀ kv ∈ r.mesh_actors, kv.2 < r.plotter.length)
    (tm' id' : Nat) (h : id' ≠ id ∨ tm' ∉ ms) :
    (setMeshLoop id c o ms r).cachedPoints tm' id' =
      r.cachedPoints tm' id' := by
  unfold Robot.cachedPoints
  rw [setMeshLoop_lookup_other id c o ms r tm' id' h]
  cases hl : lookupMA r.mesh_actors (tm', id') with
  | none => rfl
  | some idx =>
    have hmem := lookupMA_eq_some_mem hl
    have hidx : idx < r.plotter.length := hb _ hmem
    simp only [Option.some_bind]
    rw [setMeshLoop_plotter_stable id c o ms r idx hidx]

theorem setMeshLoop_lookup_new (id : Nat) (c : String) (o : ℚ)
    (ms : List Nat) (r : Robot) (tm' : Nat) (h : tm' ∈ ms) :
    (lookupMA (setMeshLoop id c o ms r).mesh_actors (tm', id)).isSome =
      true := by
  induction ms generalizing r with
  | nil => cases h
  | cons tm rest ih =>
    rw [setMeshLoop]
    by_cases hr : tm' ∈ rest
    · exact ih _ hr
    · have htm : tm' = tm := by
        rcases List.mem_cons.mp h with h | h
        · exact h
        · exact absurd h hr
      rw [setMeshLoop_lookup_other id c o rest _ tm' id (Or.inr hr), htm,
        lookupMA_cons_eq]
      rfl

theorem setMeshLoop_cached_new (id : Nat) (c : String) (o : ℚ)
    (ms : List Nat) (r : Robot) (hnd : ms.Nodup)
    (hb : ∀ kv ∈ r.mesh_actors, kv.2 < r.plotter.length)
    (tm' : Nat) (h : tm' ∈ ms) :
    (setMeshLoop id c o ms r).cachedPoints tm' id =
      some (applyPose (r.T0 * r.robot.visual_trimesh_fk none tm')
        (r.robot.mesh_points tm')) := by
  induction ms generalizing r with
  | nil => cases h
  | cons tm rest ih =>
    rw [setMeshLoop]
    rcases List.mem_cons.mp h with htm | htm
    · subst htm
      have hrest : tm' ∉ rest := (List.nodup_cons.mp hnd).1
      rw [setMeshLoop_cached_other id c o rest _ (wf_bounds_step r hb _ _)
        tm' id (Or.inr hrest)]
      unfold Robot.cachedPoints
      rw [lookupMA_cons_eq]
      simp only [Option.some_bind]
      rw [List.getElem?_concat_length]
      rfl
    · exact ih _ (List.nodup_cons.mp hnd).2 (wf_bounds_step r hb _ _) htm

theorem set_robot_mesh_const (r : Robot) (id : Nat) (c : Option String)
    (o : Option ℚ) :
    (r.set_robot_mesh id c o).robot = r.robot ∧
    (r.set_robot_mesh id c o).T0 = r.T0 ∧
    (r.set_robot_mesh id c o).id_list = r.id_list ++ [id] := by
  unfold Robot.set_robot_mesh
  refine ⟨?_, ?_, ?_⟩
  · exact (setMeshLoop_const _ _ _ _ _).1
  · exact (setMeshLoop_const _ _ _ _ _).2.1
  · exact (setMeshLoop_const _ _ _ _ _).2.2.1

theorem set_robot_mesh_cached_other (r : Robot) (id : Nat)
    (c : Option String) (o : Option ℚ) (hb : WfBounds r) (tm' id' : Nat)
    (h : id' ≠ id ∨ tm' ∉ r.robot.meshes) :
    (r.set_robot_mesh id c o).cachedPoints tm' id' =
      r.cachedPoints tm' id' := by
  unfold Robot.set_robot_mesh
  exact setMeshLoop_cached_other id (c.getD r.mesh_color)
    (o.getD r.mesh_opacity) r.robot.meshes
    { r with id_list := r.id_list ++ [id] } hb tm' id' h

theorem set_robot_mesh_cached_new (r : Robot) (id : Nat) (c : Option String)
    (o : Option ℚ) (hb : WfBounds r) (tm' : Nat)
    (h : tm' ∈ r.robot.meshes) :
    (r.set_robot_mesh id c o).cachedPoints tm' id =
      some (applyPose (r.T0 * r.robot.visual_trimesh_fk none tm')
        (r.robot.mesh_points tm')) := by
  unfold Robot.set_robot_mesh
  exact setMeshLoop_cached_new id (c.getD r.mesh_color)
    (o.getD r.mesh_opacity) r.robot.meshes
    { r with id_list := r.id_list ++ [id] } r.robot.nodup hb tm' h

theorem set_robot_mesh_lookup_new (r : Robot) (id : Nat) (c : Option String)
    (o : Option ℚ) (tm' : Nat) (h : tm' ∈ r.robot.meshes) :
    (lookupMA (r.set_robot_mesh id c o).mesh_actors (tm', id)).isSome =
      true := by
  unfold Robot.set_robot_mesh
  exact setMeshLoop_lookup_new id (c.getD r.mesh_color)
    (o.getD r.mesh_opacity) r.robot.meshes
    { r with id_list := r.id_list ++ [id] } tm' h

theorem set_robot_mesh_lookup_old (r : Robot) (id : Nat) (c : Option String)
    (o : Option ℚ) (tm' id' : Nat) (h : id' ≠ id) :
    lookupMA (r.set_robot_mesh id c o).mesh_actors (tm', id') =
      lookupMA r.mesh_actors (tm', id') := by
  unfold Robot.set_robot_mesh
  exact setMeshLoop_lookup_other id (c.getD r.mesh_color)
    (o.getD r.mesh_opacity) r.robot.meshes
    { r with id_list := r.id_list ++ [id] } tm' id' (Or.inl h)

theorem set_robot_mesh_wf (r : Robot) (id : Nat) (c : Option String)
    (o : Option ℚ) (hw : WfRobot r) : WfRobot (r.set_robot_mesh id c o) := by
  obtain ⟨hb, hi, hc⟩ := hw
  have hmesh : (r.set_robot_mesh id c o).robot = r.robot :=
    (set_robot_mesh_const r id c o).1
  have hwl := setMeshLoop_wf id (c.getD r.mesh_color) (o.getD r.mesh_opacity)
    r.robot.meshes { r with id_list := r.id_list ++ [id] } hb hi
  refine ⟨hwl.1, hwl.2, ?_⟩
  intro i hi2 tm htm
  rw [hmesh] at htm
  have hil : i ∈ r.id_list ++ [id] := by
    have := (set_robot_mesh_const r id c o).2.2
    rwa [this] at hi2
  by_cases hid : i = id
  · subst hid
    exact set_robot_mesh_lookup_new r i c o tm htm
  · have : i ∈ r.id_list := by
      rcases List.mem_append.mp hil with h | h
      · exact h
      · exact absurd (List.mem_singleton.mp h) hid
    rw [set_robot_mesh_lookup_old r id c o tm i hid]
    exact hc i this tm htm

theorem setScenePoints_length (scene : List Actor) (idx : Nat)
    (pts : List Vec3q) : (setScenePoints scene idx pts).length = scene.length := by
  unfold setScenePoints
  cases h : scene[idx]? with
  | none => rfl
  | some a => simp [List.length_set]

theorem setScenePoints_get_ne (scene : List Actor) (idx : Nat)
    (pts : List Vec3q) (j : Nat) (h : j ≠ idx) :
    (setScenePoints scene idx pts)[j]? = scene[j]? := by
  unfold setScenePoints
  cases hg : scene[idx]? with
  | none => rfl
  | some a => rw [List.getElem?_set_ne (fun hcontra => h hcontra.symm)]

theorem setScenePoints_get_eq (scene : List Actor) (idx : Nat)
    (pts : List Vec3q) (a : Actor) (h : scene[idx]? = some a) :
    (setScenePoints scene idx pts)[idx]? =
      some { a with geom := Geometry.mesh pts } := by
  unfold setScenePoints
  rw [h]
  have hlt : idx < scene.length := by
    by_contra hge
    rw [List.getElem?_eq_none (Nat.le_of_not_lt hge)] at h
    cases h
  rw [List.getElem?_set_eq_of_lt _ hlt]

theorem updateMeshLoop_const (id : Nat) (q : List ℚ) (ms : List Nat) :
    ∀ (r s : Robot), updateMeshLoop id q ms r = Except.ok s →
      s.robot = r.robot ∧ s.T0 = r.T0 ∧ s.id_list = r.id_list ∧
      s.mesh_actors = r.mesh_actors ∧
      s.plotter.length = r.plotter.length := by
  induction ms with
  | nil =>
    intro r s h
    rw [updateMeshLoop] at h
    cases h
    exact ⟨rfl, rfl, rfl, rfl, rfl⟩
  | cons tm rest ih =>
    intro r s h
    rw [updateMeshLoop] at h
    cases hl : lookupMA r.mesh_actors (tm, id) with
    | none => rw [hl] at h; cases h
    | some idx =>
      rw [hl] at h
      have := ih _ _ h
      refine ⟨this.1, this.2.1, this.2.2.1, this.2.2.2.1, ?_⟩
      rw [this.2.2.2.2]
      exact setScenePoints_length _ _ _

theorem updateMeshLoop_ok (id : Nat) (q : List ℚ) (ms : List Nat) :
    ∀ r : Robot,
      (∀ tm ∈ ms, (lookupMA r.mesh_actors (tm, id)).isSome = true) →
      ∃ s, updateMeshLoop id q ms r = Except.ok s := by
  induction ms with
  | nil => intro r _; exact ⟨r, rfl⟩
  | cons tm rest ih =>
    intro r h
    have hs := h tm (List.mem_cons_self _ _)
    cases hl : lookupMA r.mesh_actors (tm, id) with
    | none => rw [hl] at hs; cases hs
    | some idx =>
      rw [updateMeshLoop, hl]
      exact ih _ (fun tm2 htm2 => h tm2 (List.mem_cons_of_mem _ htm2))

theorem updateMeshLoop_cached_other (id : Nat) (q : List ℚ) (ms : List Nat) :
    ∀ (r s : Robot), WfBounds r → WfInj r →
      updateMeshLoop id q ms r = Except.ok s → ∀ tm' id' : Nat,
      (id' ≠ id ∨ tm' ∉ ms) →
      s.cachedPoints tm' id' = r.cachedPoints tm' id' := by
  induction ms with
  | nil =>
    intro r s _ _ h tm' id' _
    rw [updateMeshLoop] at h
    cases h
    rfl
  | cons tm rest ih =>
    intro r s hb hi h tm' id' hother
    rw [updateMeshLoop] at h
    cases hl : lookupMA r.mesh_actors (tm, id) with
    | none => rw [hl] at h; cases h
    | some idx =>
      rw [hl] at h
      have hb1 : WfBounds { r with
          plotter := setScenePoints r.plotter idx
            (applyPose (r.T0 * r.robot.visual_trimesh_fk (some q) tm)
              (r.robot.mesh_points tm)) } := by
        intro kv hkv
        rw [setScenePoints_length]
        exact hb kv hkv
      have hrest : id' ≠ id ∨ tm' ∉ rest := by
        rcases hother with h2 | h2
        · exact Or.inl h2
        · exact Or.inr (fun hm => h2 (List.mem_cons_of_mem _ hm))
      rw [ih _ _ hb1 hi h tm' id' hrest]
      unfold Robot.cachedPoints
      cases hl2 : lookupMA r.mesh_actors (tm', id') with
      | none => rfl
      | some idx2 =>
        simp only [Option.some_bind]
        have hne : idx2 ≠ idx := by
          intro hcontra
          subst hcontra
          have : ((tm', id') : Nat × Nat) = (tm, id) := lookupMA_inj hi hl2 hl
          rw [Prod.mk.injEq] at this
          rcases hother with h2 | h2
          · exact h2 this.2
          · rw [this.1] at h2
            exact h2 (List.mem_cons_self _ _)
        rw [setScenePoints_get_ne _ _ _ _ hne]

theorem cachedPoints_after_write (r : Robot) (tm id idx : Nat)
    (pts : List Vec3q) (hb : WfBounds r)
    (hl : lookupMA r.mesh_actors (tm, id) = some idx) :
    Robot.cachedPoints { r with plotter := setScenePoints r.plotter idx pts }
      tm id = some pts := by
  unfold Robot.cachedPoints
  dsimp only
  rw [hl]
  simp only [Option.some_bind]
  have hidx : idx < r.plotter.length := hb _ (lookupMA_eq_some_mem hl)
  obtain ⟨a, ha⟩ : ∃ a, r.plotter[idx]? = some a := by
    rw [List.getElem?_eq_getElem hidx]
    exact ⟨_, rfl⟩
  rw [setScenePoints_get_eq _ _ _ _ ha]
  rfl

theorem updateMeshLoop_cached_written (id : Nat) (q : List ℚ)
    (ms : List Nat) :
    ∀ (r s : Robot), WfBounds r → WfInj r → ms.Nodup →
      updateMeshLoop id q ms r = Except.ok s → ∀ tm' ∈ ms,
      s.cachedPoints tm' id =
        some (applyPose (r.T0 * r.robot.visual_trimesh_fk (some q) tm')
          (r.robot.mesh_points tm')) := by
  induction ms with
  | nil => intro r s _ _ _ _ tm' h; cases h
  | cons tm rest ih =>
    intro r s hb hi hnd h tm' htm'
    rw [updateMeshLoop] at h
    cases hl : lookupMA r.mesh_actors (tm, id) with
    | none => rw [hl] at h; cases h
    | some idx =>
      rw [hl] at h
      have hb1 : WfBounds { r with
          plotter := setScenePoints r.plotter idx
            (applyPose (r.T0 * r.robot.visual_trimesh_fk (some q) tm)
              (r.robot.mesh_points tm)) } := by
        intro kv hkv
        rw [setScenePoints_length]
        exact hb kv hkv
      rcases List.mem_cons.mp htm' with htm | htm
      · subst htm
        have hrest : tm' ∉ rest := (List.nodup_cons.mp hnd).1
        rw [updateMeshLoop_cached_other id q rest _ _ hb1 hi h tm' id
          (Or.inr hrest)]
        exact cachedPoints_after_write r tm' id idx _ hb hl
      · exact ih _ _ hb1 hi (List.nodup_cons.mp hnd).2 h tm' htm

theorem set_robot_mesh_pack (r : Robot) (id : Nat) (hw : WfRobot r) :
    WfRobot (r.set_robot_mesh id none none) ∧
    (r.set_robot_mesh id none none).robot = r.robot ∧
    (r.set_robot_mesh id none none).T0 = r.T0 ∧
    id ∈ (r.set_robot_mesh id none none).id_list ∧
    (∀ tm ∈ r.robot.meshes,
      (lookupMA (r.set_robot_mesh id none none).mesh_actors (tm, id)).isSome
        = true) ∧
    (∀ tm' id', id' ≠ id →
      (r.set_robot_mesh id none none).cachedPoints tm' id' =
        r.cachedPoints tm' id') := by
  refine ⟨set_robot_mesh_wf r id none none hw,
    (set_robot_mesh_const r id none none).1,
    (set_robot_mesh_const r id none none).2.1, ?_, ?_, ?_⟩
  · rw [(set_robot_mesh_const r id none none).2.2]
    exact List.mem_append.mpr (Or.inr (List.mem_singleton.mpr rfl))
  · intro tm htm
    exact set_robot_mesh_lookup_new r id none none tm htm
  · intro tm' id' hne
    exact set_robot_mesh_cached_other r id none none hw.1 tm' id' (Or.inl hne)

theorem ensureMeshes_spec (r : Robot) (id : Nat) (hw : WfRobot r) :
    WfRobot (r.ensureMeshes id) ∧ (r.ensureMeshes id).robot = r.robot ∧
    (r.ensureMeshes id).T0 = r.T0 ∧ id ∈ (r.ensureMeshes id).id_list ∧
    (∀ tm ∈ r.robot.meshes,
      (lookupMA (r.ensureMeshes id).mesh_actors (tm, id)).isSome = true) ∧
    (∀ tm' id', id' ≠ id →
      (r.ensureMeshes id).cachedPoints tm' id' = r.cachedPoints tm' id') := by
  unfold Robot.ensureMeshes
  by_cases hma : r.mesh_actors = []
  · rw [if_pos hma]
    have hpack := set_robot_mesh_pack r id hw
    rw [if_pos hpack.2.2.2.1]
    exact hpack
  · rw [if_neg hma]
    by_cases hid : id ∈ r.id_list
    · rw [if_pos hid]
      exact ⟨hw, rfl, rfl, hid,
        fun tm htm => hw.2.2 id hid tm htm, fun _ _ _ => rfl⟩
    · rw [if_neg hid]
      exact set_robot_mesh_pack r id hw

theorem ensureMeshes_fresh (r : Robot) (id : Nat) (h : id ∉ r.id_list) :
    r.ensureMeshes id = r.set_robot_mesh id none none := by
  unfold Robot.ensureMeshes
  by_cases hma : r.mesh_actors = []
  · rw [if_pos hma]
    have hmem : id ∈ (r.set_robot_mesh id none none).id_list := by
      rw [(set_robot_mesh_const r id none none).2.2]
      exact List.mem_append.mpr (Or.inr (List.mem_singleton.mpr rfl))
    rw [if_pos hmem]
  · rw [if_neg hma, if_neg h]

theorem update_char (r : Robot) (q : List ℚ) (id : Nat) (hw : WfRobot r) :
    ∃ s, r.update q id = Except.ok s ∧ WfRobot s ∧ s.robot = r.robot ∧
      s.T0 = r.T0 ∧ id ∈ s.id_list ∧
      (∀ tm ∈ r.robot.meshes,
        (lookupMA s.mesh_actors (tm, id)).isSome = true) ∧
      (∀ tm ∈ r.robot.meshes, s.cachedPoints tm id =
        some (applyPose (r.T0 * r.robot.visual_trimesh_fk (some q) tm)
          (r.robot.mesh_points tm))) ∧
      (∀ tm' id', id' ≠ id →
        s.cachedPoints tm' id' = r.cachedPoints tm' id') := by
  obtain ⟨hw2, hrob, hT0, hid, hlook, hoth⟩ := ensureMeshes_spec r id hw
  have hms : (r.ensureMeshes id).robot.meshes = r.robot.meshes := by
    rw [hrob]
  obtain ⟨s, hs⟩ := updateMeshLoop_ok id q (r.ensureMeshes id).robot.meshes
    (r.ensureMeshes id) (by
      intro tm htm
      exact hlook tm (by rwa [hms] at htm))
  have hconst := updateMeshLoop_const id q (r.ensureMeshes id).robot.meshes
    (r.ensureMeshes id) s hs
  refine ⟨s, hs, ?_, ?_, ?_, ?_, ?_, ?_, ?_⟩
  · refine ⟨?_, ?_, ?_⟩
    · intro kv hkv
      rw [hconst.2.2.2.1] at hkv
      rw [hconst.2.2.2.2]
      exact hw2.1 kv hkv
    · show (s.mesh_actors.map (fun kv => kv.2)).Nodup
      rw [hconst.2.2.2.1]
      exact hw2.2.1
    · intro i hi2 tm htm
      rw [hconst.2.2.1] at hi2
      rw [hconst.1] at htm
      rw [hconst.2.2.2.1]
      exact hw2.2.2 i hi2 tm htm
  · rw [hconst.1, hrob]
  · rw [hconst.2.1, hT0]
  · rw [hconst.2.2.1]
    exact hid
  · intro tm htm
    rw [hconst.2.2.2.1]
    exact hlook tm htm
  · intro tm htm
    have := updateMeshLoop_cached_written id q (r.ensureMeshes id).robot.meshes
      (r.ensureMeshes id) s hw2.1 hw2.2.1 (r.ensureMeshes id).robot.nodup hs
      tm (by rwa [hms])
    rwa [hT0, hrob] at this
  · intro tm' id' hne
    have := updateMeshLoop_cached_other id q (r.ensureMeshes id).robot.meshes
      (r.ensureMeshes id) s hw2.1 hw2.2.1 hs tm' id' (Or.inl hne)
    rw [this]
    exact hoth tm' id' hne

theorem update_wf (r : Robot) (q : List ℚ) (id : Nat) (hw : WfRobot r)
    {s : Robot} (hs : r.update q id = Except.ok s) : WfRobot s := by
  obtain ⟨s2, hs2, hwf, _⟩ := update_char r q id hw
  rw [hs] at hs2
  cases hs2
  exact hwf

/-- A one-link robot used to exercise the theorems on concrete input. -/
def demoTree : KinematicTree :=
  { meshes := [0]
    nodup := by decide
    mesh_points := fun _ => [((1 : ℚ), 0, 0)]
    visual_trimesh_fk := fun _ _ => 1
    link_fk := fun _ _ => 1 }

/-- A freshly constructed robot over `demoTree` with default options. -/
def demoRobot : Robot :=
  mkRobot demoTree [] ("lightgray") 1 ((0 : ℚ), 0, 0) 1

/-- C1: for every joint configuration `q` and instance id absent from the
registry, `update q id` first performs the full mesh creation of
`set_robot_mesh` for that id at the neutral configuration and only then
applies `q`: the call equals running the update loop on
`set_robot_mesh id`, and afterwards every link mesh has a cache entry under
`id`, `id` is registered, and the cached vertices carry `q`'s poses —
with no prior explicit `set_robot_mesh` call required. -/
theorem Robot.update_auto_creation (r : Robot) (q : List ℚ) (id : Nat)
    (hw : WfRobot r) (hfresh : id ∉ r.id_list) :
    r.update q id =
      updateMeshLoop id q (r.set_robot_mesh id none none).robot.meshes
        (r.set_robot_mesh id none none) ∧
    ∃ s, r.update q id = Except.ok s ∧ id ∈ s.id_list ∧
      (∀ tm ∈ r.robot.meshes,
        (lookupMA s.mesh_actors (tm, id)).isSome = true) ∧
      (∀ tm ∈ r.robot.meshes, s.cachedPoints tm id =
        some (applyPose (r.T0 * r.robot.visual_trimesh_fk (some q) tm)
          (r.robot.mesh_points tm))) := by
  constructor
  · show updateMeshLoop id q (r.ensureMeshes id).robot.meshes
      (r.ensureMeshes id) = _
    rw [ensureMeshes_fresh r id hfresh]
  · obtain ⟨s, hok, _, _, _, hid, hlook, hnew, _⟩ := update_char r q id hw
    exact ⟨s, hok, hid, hlook, hnew⟩

/-- Witness for C1 on the demo robot with the unseen instance id 7. -/
theorem Robot.update_auto_creation_witness :
    WfRobot demoRobot ∧ 7 ∉ demoRobot.id_list ∧
    (demoRobot.update [1] 7 =
      updateMeshLoop 7 [1]
        (demoRobot.set_robot_mesh 7 none none).robot.meshes
        (demoRobot.set_robot_mesh 7 none none) ∧
    ∃ s, demoRobot.update [1] 7 = Except.ok s ∧ 7 ∈ s.id_list ∧
      (∀ tm ∈ demoRobot.robot.meshes,
        (lookupMA s.mesh_actors (tm, 7)).isSome = true) ∧
      (∀ tm ∈ demoRobot.robot.meshes, s.cachedPoints tm 7 =
        some (applyPose
          (demoRobot.T0 * demoRobot.robot.visual_trimesh_fk (some [1]) tm)
          (demoRobot.robot.mesh_points tm)))) :=
  ⟨by decide, by decide,
    Robot.update_auto_creation demoRobot [1] 7 (by decide) (by decide)⟩

/-- C2: the pristine-reset policy of `update` prevents transform
accumulation: after `update q1; update q2; update q1` the cached vertex
buffers equal those of a single `update q1` on a freshly constructed
instance over the same tree and base transform — both being the local
vertices under `T0 * visual_trimesh_fk(q1)` exactly. -/
theorem Robot.update_no_accumulation (r : Robot) (ps : List Actor)
    (c : String) (o : ℚ) (p0 : Vec3q) (R0 : Matrix (Fin 3) (Fin 3) ℚ)
    (q1 q2 : List ℚ) (id : Nat) (hw : WfRobot r)
    (hT0 : buildT0 p0 R0 = r.T0) :
    ∃ s1 s2 s3 f1,
      r.update q1 id = Except.ok s1 ∧ s1.update q2 id = Except.ok s2 ∧
      s2.update q1 id = Except.ok s3 ∧
      (mkRobot r.robot ps c o p0 R0).update q1 id = Except.ok f1 ∧
      ∀ tm ∈ r.robot.meshes,
        s3.cachedPoints tm id = f1.cachedPoints tm id ∧
        s3.cachedPoints tm id =
          some (applyPose (r.T0 * r.robot.visual_trimesh_fk (some q1) tm)
            (r.robot.mesh_points tm)) := by
  obtain ⟨s1, h1, hw1, hrob1, hT01, _, _, _, _⟩ := update_char r q1 id hw
  obtain ⟨s2, h2, hw2, hrob2, hT02, _, _, _, _⟩ := update_char s1 q2 id hw1
  obtain ⟨s3, h3, _, _, _, _, _, hnew3, _⟩ := update_char s2 q1 id hw2
  have hwf : WfRobot (mkRobot r.robot ps c o p0 R0) :=
    ⟨fun kv hkv => absurd hkv (List.not_mem_nil _), List.nodup_nil,
     fun i hi2 => absurd hi2 (List.not_mem_nil _)⟩
  obtain ⟨f1, hf1, _, _, _, _, _, hnewf, _⟩ :=
    update_char (mkRobot r.robot ps c o p0 R0) q1 id hwf
  refine ⟨s1, s2, s3, f1, h1, h2, h3, hf1, ?_⟩
  intro tm htm
  have htm2 : tm ∈ s2.robot.meshes := by rw [hrob2, hrob1]; exact htm
  have e3 := hnew3 tm htm2
  rw [hT02, hT01, hrob2, hrob1] at e3
  have ef := hnewf tm htm
  have hmk1 : (mkRobot r.robot ps c o p0 R0).T0 = r.T0 := hT0
  have hmk2 : (mkRobot r.robot ps c o p0 R0).robot = r.robot := rfl
  rw [hmk1, hmk2] at ef
  exact ⟨e3.trans ef.symm, e3⟩

/-- Witness for C2 on the demo robot with configurations `[1]` and `[2]`. -/
theorem Robot.update_no_accumulation_witness :
    WfRobot demoRobot ∧ buildT0 ((0 : ℚ), 0, 0) 1 = demoRobot.T0 ∧
    (∃ s1 s2 s3 f1,
      demoRobot.update [1] 0 = Except.ok s1 ∧
      s1.update [2] 0 = Except.ok s2 ∧
      s2.update [1] 0 = Except.ok s3 ∧
      (mkRobot demoRobot.robot [] ("lightgray") 1 ((0 : ℚ), 0, 0) 1).update
        [1] 0 = Except.ok f1 ∧
      ∀ tm ∈ demoRobot.robot.meshes,
        s3.cachedPoints tm 0 = f1.cachedPoints tm 0 ∧
        s3.cachedPoints tm 0 =
          some (applyPose
            (demoRobot.T0 * demoRobot.robot.visual_trimesh_fk (some [1]) tm)
            (demoRobot.robot.mesh_points tm))) :=
  ⟨by decide, rfl,
    Robot.update_no_accumulation demoRobot [] ("lightgray") 1
      ((0 : ℚ), 0, 0) 1 [1] [2] 0 (by decide) rfl⟩

/-- C3: multi-instance isolation: `update q 0` followed by `update q' 1`
leaves every cached vertex buffer of instance 0 exactly as it was after the
first call — instance 1 gets its own independent scene meshes. -/
theorem Robot.update_instance_isolation (r : Robot) (q q' : List ℚ)
    (hw : WfRobot r) :
    ∃ s1 s2, r.update q 0 = Except.ok s1 ∧ s1.update q' 1 = Except.ok s2 ∧
      ∀ tm : Nat, s2.cachedPoints tm 0 = s1.cachedPoints tm 0 := by
  obtain ⟨s1, h1, hw1, _, _, _, _, _, _⟩ := update_char r q 0 hw
  obtain ⟨s2, h2, _, _, _, _, _, _, hoth⟩ := update_char s1 q' 1 hw1
  exact ⟨s1, s2, h1, h2, fun tm => hoth tm 0 (by decide)⟩

/-- Witness for C3 on the demo robot. -/
theorem Robot.update_instance_isolation_witness :
    WfRobot demoRobot ∧
    (∃ s1 s2, demoRobot.update [1] 0 = Except.ok s1 ∧
      s1.update [2] 1 = Except.ok s2 ∧
      ∀ tm : Nat, s2.cachedPoints tm 0 = s1.cachedPoints tm 0) :=
  ⟨by decide, Robot.update_instance_isolation demoRobot [1] [2] (by decide)⟩

/-- C4: `fk` returns exactly `T0 * link_fk(q, name)` (entrywise the matrix
product) and is pure: the receiver state — mesh cache, registry and `T0`
included — is returned unchanged, and nothing is cached. -/
theorem Robot.fk_pure_correct (r : Robot) (q : List ℚ) (name : String) :
    (r.fk q name).2 = r ∧
    (r.fk q name).1 = r.T0 * r.robot.link_fk q name ∧
    ∀ i j : Fin 4, (r.fk q name).1 i j =
      ∑ k : Fin 4, r.T0 i k * r.robot.link_fk q name k j :=
  ⟨rfl, rfl, fun _ _ => Matrix.mul_apply⟩

theorem lines_from_points_cons (p : Vec3q) (ps : List Vec3q) (close : Bool) :
    lines_from_points (p :: ps) close =
      Except.ok (p :: ps,
        (List.range ps.length).map (fun i => (i, i + 1)) ++
          (if close then [(ps.length, 0)] else [])) := by
  unfold lines_from_points
  simp

/-- C5 counterexample: `plot_ee_path` on a single-configuration path does
not fail at all — there is no `InsufficientPointsError` in the code, and
the backend builds a degenerate one-point polyline without error. -/
theorem Robot.plot_ee_path_single_config_ok :
    (demoRobot.plot_ee_path [[0]] 1 ("CS_6") none 1 4).isOk = true := by
  decide

/-- C5 (amended): `plot_ee_path` performs no length validation. With one
configuration it succeeds, adding a degenerate one-point polyline with no
segments; with two configurations it adds a two-point open polyline whose
endpoints are the two end-effector positions in input order (the
zero-configuration case is rejected only by the scene backend's
empty-points check, not by any `InsufficientPointsError`). -/
theorem Robot.plot_ee_path_degenerate_and_two_point (r : Robot)
    (q1 q2 : List ℚ) (Tgp : Mat4) (nm : String) (c : Option String)
    (o lw : ℚ) :
    (r.plot_ee_path [q1] Tgp nm c o lw =
      Except.ok
        ({ r with
            plotter := r.plotter ++
              [{ geom := Geometry.polyline [eePos r Tgp nm q1] [],
                 color := c.getD r.mesh_color, opacity := r.mesh_opacity,
                 line_width := some lw }] }, r.plotter.length)) ∧
    (r.plot_ee_path [q1, q2] Tgp nm c o lw =
      Except.ok
        ({ r with
            plotter := r.plotter ++
              [{ geom := Geometry.polyline
                   [eePos r Tgp nm q1, eePos r Tgp nm q2] [(0, 1)],
                 color := c.getD r.mesh_color, opacity := r.mesh_opacity,
                 line_width := some lw }] }, r.plotter.length)) := by
  constructor
  · rfl
  · rfl

/-- C8: `plot_ee` with a marker type outside sphere/cube/cross falls through
the `if/elif` chain: it returns normally, raises nothing, and adds no
geometry — the robot state (plotter included) is returned unchanged. -/
theorem Robot.plot_ee_unknown_type_noop (r : Robot) (q : List ℚ)
    (Tgp : Mat4) (nm : String) (c : String) (size : ℚ) (ty : String)
    (h : ty ∉ (["sphere", "cube", "cross"] : List String)) :
    r.plot_ee q Tgp nm c size ty = r := by
  have h1 : ty ≠ "sphere" := fun hc => h (by rw [hc]; simp)
  have h2 : ty ≠ "cube" := fun hc => h (by rw [hc]; simp)
  have h3 : ty ≠ "cross" := fun hc => h (by rw [hc]; simp)
  simp [Robot.plot_ee, h1, h2, h3]

/-- Witness for C8: the unknown marker type is silently ignored. -/
theorem Robot.plot_ee_unknown_type_noop_witness :
    (("star") ∉ (["sphere", "cube", "cross"] : List String)) ∧
    demoRobot.plot_ee [] 1 ("CS_6") ("red") 1 ("star") = demoRobot :=
  ⟨by decide,
    Robot.plot_ee_unknown_type_noop demoRobot [] 1 ("CS_6") ("red") 1
      ("star") (by decide)⟩

/-- C9: the `opacity` argument of `plot_ee_path` has no effect — the result
is identical for any two opacity arguments — and the polyline actor is
added with the instance default `mesh_opacity` instead. -/
theorem Robot.plot_ee_path_opacity_ignored :
    (∀ (r : Robot) (path : List (List ℚ)) (Tgp : Mat4) (nm : String)
      (c : Option String) (lw o1 o2 : ℚ),
      r.plot_ee_path path Tgp nm c o1 lw =
        r.plot_ee_path path Tgp nm c o2 lw) ∧
    (∀ (r : Robot) (q : List ℚ) (rest : List (List ℚ)) (Tgp : Mat4)
      (nm : String) (c : Option String) (o lw : ℚ),
      ∃ s, r.plot_ee_path (q :: rest) Tgp nm c o lw =
          Except.ok (s, r.plotter.length) ∧
        ∃ a, s.plotter[r.plotter.length]? = some a ∧
          a.opacity = r.mesh_opacity) := by
  constructor
  · intro r path Tgp nm c lw o1 o2
    rfl
  · intro r q rest Tgp nm c o lw
    unfold Robot.plot_ee_path
    dsimp only
    rw [List.map_cons, lines_from_points_cons]
    refine ⟨_, rfl, ?_⟩
    rw [List.getElem?_concat_length]
    exact ⟨_, rfl, rfl⟩

/-- C6: `calculate_fps_from_timestamps` returns the 30.0 fallback for fewer
than two samples and `len / (last / 1000)` otherwise; in particular it maps
`[0]` to 30 and `[0, 100, 200, 300, 400]` to 12.5. -/
theorem calculate_fps_spec :
    calculate_fps_from_timestamps [] = 30 ∧
    (∀ x : ℚ, calculate_fps_from_timestamps [x] = 30) ∧
    (∀ (x y : ℚ) (l : List ℚ),
      calculate_fps_from_timestamps (x :: y :: l) =
        ((x :: y :: l).length : ℚ) / ((x :: y :: l).getLastD 0 / 1000)) ∧
    calculate_fps_from_timestamps [0] = 30 ∧
    calculate_fps_from_timestamps [0, 100, 200, 300, 400] = 12.5 := by
  refine ⟨rfl, fun x => rfl, ?_, rfl,
    by norm_num [calculate_fps_from_timestamps, List.getLastD]⟩
  intro x y l
  unfold calculate_fps_from_timestamps
  rw [if_neg (by simp only [List.length_cons]; omega)]

/-- C7: `interpolate_frame_count` equals
`max 1 (round((current - previous) / 1000 * fps))` with Python's
round-half-to-even, maps the (1200, 1000, 10) sample to 2, and is always
at least 1. -/
theorem interpolate_frame_count_spec :
    (∀ c p m : ℚ, interpolate_frame_count c p m =
      max 1 (pythonRound ((c - p) / 1000 * m))) ∧
    interpolate_frame_count 1200 1000 10 = 2 ∧
    (∀ c p m : ℚ, 1 ≤ interpolate_frame_count c p m) :=
  ⟨fun _ _ _ => rfl, by norm_num [interpolate_frame_count, pythonRound],
    fun _ _ _ => le_max_left _ _⟩

noncomputable section

/-- A 3-vector over ℝ for the arrow visualizer of `primitives.py` (its
rebuild multiplies by a Euclidean norm, so exact rationals do not suffice). -/
abbrev Vec3r := ℝ × ℝ × ℝ

/-- Euclidean norm `np.linalg.norm` of a 3-vector. -/
def norm3 (v : Vec3r) : ℝ := Real.sqrt (v.1 ^ 2 + v.2.1 ^ 2 + v.2.2 ^ 2)

/-- Componentwise addition over ℝ. -/
def add3r (a b : Vec3r) : Vec3r := (a.1 + b.1, a.2.1 + b.2.1, a.2.2 + b.2.2)

/-- Scalar multiple over ℝ. -/
def smul3r (c : ℝ) (v : Vec3r) : Vec3r := (c * v.1, c * v.2.1, c * v.2.2)

/-- Cross product `np.cross`. -/
def cross3r (a b : Vec3r) : Vec3r :=
  (a.2.1 * b.2.2 - a.2.2 * b.2.1, a.2.2 * b.1 - a.1 * b.2.2,
   a.1 * b.2.1 - a.2.1 * b.1)

/-- Stand-in for the point set of the external vtkArrowSource unit arrow
(tail at the origin, cone apex at `(1, 0, 0)`, pointing along +x); the full
tessellation is abstracted to these two representative points, of which the
proofs only use the apex. -/
def unitArrowPoints : List Vec3r := [(0, 0, 0), (1, 0, 0)]

/-- The rotation applied by pyvista's `translate` helper when building
`pv.Arrow`: an orthogonal frame whose first column is
`direction / |direction|` (the remaining columns come from cross products
with the near-y vector `[0, 1, 1e-7]`). -/
def translateRotate (d : Vec3r) (p : Vec3r) : Vec3r :=
  let normx := smul3r (norm3 d)⁻¹ d
  let z0 := cross3r normx (0, 1, 1 / 10000000)
  let normz := smul3r (norm3 z0)⁻¹ z0
  let normy := cross3r normz normx
  add3r (smul3r p.1 normx) (add3r (smul3r p.2.1 normy) (smul3r p.2.2 normz))

/-- `pv.Arrow(start=..., direction=..., scale=...)` (external backend):
scale the unit arrow, rotate it onto `direction`, translate to `start`. -/
def pvArrow (start direction : Vec3r) (scale : ℝ) : List Vec3r :=
  unitArrowPoints.map
    (fun p => add3r start (translateRotate direction (smul3r scale p)))

/-- State of `ArrowVisualizer` from `primitives.py`. -/
structure ArrowVisualizer where
  origin : Vec3r
  direction : Vec3r
  scale : ℝ
  color : String

/-- `ArrowVisualizer.__init__` and `_create_arrow`: build the arrow with
scale factor `self.scale`; returns the state and the actor's geometry. -/
def arrowInit (origin direction : Vec3r) (scale : ℝ) (color : String) :
    ArrowVisualizer × List Vec3r :=
  ({ origin := origin, direction := direction, scale := scale,
     color := color },
   pvArrow origin direction scale)

/-- `ArrowVisualizer.update`: store the new origin/direction if given and
rebuild the actor's dataset with scale factor
`self.scale * np.linalg.norm(self.direction)`. -/
def ArrowVisualizer.update (a : ArrowVisualizer)
    (origin direction : Option Vec3r) : ArrowVisualizer × List Vec3r :=
  let a1 := match origin with | some o => { a with origin := o } | none => a
  let a2 := match direction with
    | some dir => { a1 with direction := dir }
    | none => a1
  (a2, pvArrow a2.origin a2.direction (a2.scale * norm3 a2.direction))

end

theorem norm3_two : norm3 ((2 : ℝ), 0, 0) = 2 := by
  unfold norm3
  rw [show ((2 : ℝ) ^ 2 + 0 ^ 2 + 0 ^ 2) = 2 ^ 2 by norm_num]
  exact Real.sqrt_sq (by norm_num)

theorem norm3_two_ne_one : norm3 ((2 : ℝ), 0, 0) ≠ 1 := by
  rw [norm3_two]; norm_num

theorem vec_two_ne_zero :
    (((2 : ℝ), (0 : ℝ), (0 : ℝ)) : Vec3r) ≠ (0, 0, 0) := by
  intro h
  have h2 := congrArg Prod.fst h
  norm_num at h2

theorem norm3_ne_zero {v : Vec3r} (h : v ≠ (0, 0, 0)) : norm3 v ≠ 0 := by
  unfold norm3
  intro h0
  have hle : v.1 ^ 2 + v.2.1 ^ 2 + v.2.2 ^ 2 ≤ 0 := Real.sqrt_eq_zero'.mp h0
  have h1 : v.1 = 0 := by
    nlinarith [sq_nonneg v.1, sq_nonneg v.2.1, sq_nonneg v.2.2]
  have h2 : v.2.1 = 0 := by
    nlinarith [sq_nonneg v.1, sq_nonneg v.2.1, sq_nonneg v.2.2]
  have h3 : v.2.2 = 0 := by
    nlinarith [sq_nonneg v.1, sq_nonneg v.2.1, sq_nonneg v.2.2]
  exact h (Prod.ext h1 (Prod.ext h2 h3))

theorem translateRotate_apex (d : Vec3r) (s : ℝ) :
    translateRotate d (smul3r s (1, 0, 0)) = smul3r (s * (norm3 d)⁻¹) d := by
  unfold translateRotate smul3r add3r cross3r
  dsimp only
  refine Prod.ext ?_ (Prod.ext ?_ ?_)
  · dsimp only; ring
  · dsimp only; ring
  · dsimp only; ring

/-- C10 counterexample: for a visualizer constructed with scale 0 and
direction `(2, 0, 0)` (norm 2, not a unit vector), `update` with the same
origin and direction reproduces the constructed geometry exactly — the
claim's "differs for every direction of non-unit norm" fails at scale 0. -/
theorem arrow_update_zero_scale :
    norm3 ((2 : ℝ), 0, 0) ≠ 1 ∧
    ((arrowInit (0, 0, 0) (2, 0, 0) 0 ("white")).1.update (some (0, 0, 0))
        (some (2, 0, 0))).2 =
      (arrowInit (0, 0, 0) (2, 0, 0) 0 ("white")).2 := by
  refine ⟨norm3_two_ne_one, ?_⟩
  show pvArrow (0, 0, 0) (2, 0, 0) (0 * norm3 (2, 0, 0)) =
    pvArrow (0, 0, 0) (2, 0, 0) 0
  rw [zero_mul]

/-- C10 (amended): `update` rebuilds the arrow with scale factor
`scale * |direction|` whereas construction uses `scale` alone; with the same
origin and direction the two geometries coincide whenever `|direction| = 1`,
and — provided the visualizer's scale is nonzero and the direction is
nonzero — differ for every direction of non-unit norm. -/
theorem arrow_update_rescale (o d : Vec3r) (s : ℝ) (c : String) :
    ((arrowInit o d s c).1.update (some o) (some d)).2 =
      pvArrow o d (s * norm3 d) ∧
    (arrowInit o d s c).2 = pvArrow o d s ∧
    (norm3 d = 1 →
      ((arrowInit o d s c).1.update (some o) (some d)).2 =
        (arrowInit o d s c).2) ∧
    (s ≠ 0 → d ≠ (0, 0, 0) → norm3 d ≠ 1 →
      ((arrowInit o d s c).1.update (some o) (some d)).2 ≠
        (arrowInit o d s c).2) := by
  refine ⟨rfl, rfl, ?_, ?_⟩
  · intro h1
    show pvArrow o d (s * norm3 d) = pvArrow o d s
    rw [h1, mul_one]
  · intro hs hd hn heq
    have hnz : norm3 d ≠ 0 := norm3_ne_zero hd
    have heq2 : pvArrow o d (s * norm3 d) = pvArrow o d s := heq
    unfold pvArrow unitArrowPoints at heq2
    simp only [List.map_cons, List.map_nil, List.cons.injEq, and_true] at heq2
    obtain ⟨-, happex⟩ := heq2
    rw [translateRotate_apex, translateRotate_apex,
      mul_inv_cancel_right₀ hnz] at happex
    simp only [add3r, smul3r, Prod.mk.injEq] at happex
    have hk : s * (1 - (norm3 d)⁻¹) ≠ 0 := by
      apply mul_ne_zero hs
      intro hcontra
      apply hn
      rw [← inv_eq_one]
      linarith
    have e1 : s * d.1 = s * (norm3 d)⁻¹ * d.1 := by linarith [happex.1]
    have e2 : s * d.2.1 = s * (norm3 d)⁻¹ * d.2.1 := by linarith [happex.2.1]
    have e3 : s * d.2.2 = s * (norm3 d)⁻¹ * d.2.2 := by linarith [happex.2.2]
    have hd1 : d.1 = 0 := by
      rcases mul_eq_zero.mp
        (show s * (1 - (norm3 d)⁻¹) * d.1 = 0 by linear_combination e1) with
        h | h
      · exact absurd h hk
      · exact h
    have hd2 : d.2.1 = 0 := by
      rcases mul_eq_zero.mp
        (show s * (1 - (norm3 d)⁻¹) * d.2.1 = 0 by linear_combination e2) with
        h | h
      · exact absurd h hk
      · exact h
    have hd3 : d.2.2 = 0 := by
      rcases mul_eq_zero.mp
        (show s * (1 - (norm3 d)⁻¹) * d.2.2 = 0 by linear_combination e3) with
        h | h
      · exact absurd h hk
      · exact h
    exact hd (Prod.ext hd1 (Prod.ext hd2 hd3))

theorem norm3_one : norm3 ((1 : ℝ), 0, 0) = 1 := by
  unfold norm3
  rw [show ((1 : ℝ) ^ 2 + 0 ^ 2 + 0 ^ 2) = 1 ^ 2 by norm_num]
  exact Real.sqrt_sq (by norm_num)

/-- Witness for the amended C10: geometry differs at scale 1 and direction
`(2, 0, 0)`, and coincides at the unit direction `(1, 0, 0)`. -/
theorem arrow_update_rescale_witness :
    ((1 : ℝ) ≠ 0) ∧
    ((((2 : ℝ), (0 : ℝ), (0 : ℝ)) : Vec3r) ≠ (0, 0, 0)) ∧
    (norm3 ((2 : ℝ), 0, 0) ≠ 1) ∧
    ((arrowInit (0, 0, 0) (2, 0, 0) 1 ("white")).1.update (some (0, 0, 0))
        (some (2, 0, 0))).2 ≠
      (arrowInit (0, 0, 0) (2, 0, 0) 1 ("white")).2 ∧
    (norm3 ((1 : ℝ), 0, 0) = 1) ∧
    ((arrowInit (0, 0, 0) (1, 0, 0) 1 ("white")).1.update (some (0, 0, 0))
        (some (1, 0, 0))).2 =
      (arrowInit (0, 0, 0) (1, 0, 0) 1 ("white")).2 :=
  ⟨one_ne_zero, vec_two_ne_zero, norm3_two_ne_one,
    (arrow_update_rescale (0, 0, 0) (2, 0, 0) 1 ("white")).2.2.2 one_ne_zero
      vec_two_ne_zero norm3_two_ne_one,
    norm3_one,
    (arrow_update_rescale (0, 0, 0) (1, 0, 0) 1 ("white")).2.2.1 norm3_one⟩
